import Mathlib

/-!
Shallow embedding of the Sikhsha-sathi institute-management application
(src/main.py) and verification of the frozen claims about its
specification.

Monetary amounts (course fees, payment amounts) are Python numbers in the
source; they are modelled as rationals.  Mongo ObjectIds are modelled as
plain strings, with `ObjectId(x)` and `str(x)` both the identity.
Collections are lists of records in natural (insertion) order;
`find_one` is `List.find?`, `insert_one` appends, `delete_one` erases the
first match, `delete_many` filters, `update_one` rewrites the first match
and `count_documents` is `List.countP`.
-/

/-- A recorded payment document (src/main.py, `collect_payment`,
lines 1662-1673).  The `created_at` timestamp is not modelled. -/
structure Payment where
  institute_id : String
  student_id : String
  amount : ℚ
  method : String
  date : String
  transaction_id : Option String
  receipt_number : Option String
  notes : Option String
deriving DecidableEq, Repr

/-- A course document (`add_course` inserts name/fee scoped to an
institute). -/
structure Course where
  id : String
  institute_id : String
  name : String
  fee : ℚ
deriving DecidableEq, Repr

/-- A student document as inserted by `add_student`
(src/main.py, lines 804-818).  `payment_status` is optional because other
routes read it with `s.get("payment_status")`. -/
structure Student where
  id : String
  name : String
  phone : String
  course_id : String
  course_name : String
  student_email : String
  joined_date : String
  guardian_name : String
  guardian_phone : String
  village : String
  status : String
  payment_status : Option String
  institute_id : String
  institute_email : String
deriving DecidableEq, Repr

/-- The per-student fee view computed by the fee routes: total fee,
paid amount, pending amount and the derived payment status. -/
structure FeeView where
  total_fee : ℚ
  paid_amount : ℚ
  pending_amount : ℚ
  payment_status : String
deriving DecidableEq, Repr

/-- The status branch of the fees list (src/main.py, lines 1555-1562):
`if paid >= total: "Paid" elif paid == 0: s.get("payment_status",
"Pay Later") elif paid >= 0.5 * total: "Partial" else: "Pending"`.
`prior` is the student's stored `payment_status`. -/
def list_fees_status (prior : Option String) (paid_amount total_fee : ℚ) : String :=
  if paid_amount ≥ total_fee then "Paid"
  else if paid_amount = 0 then prior.getD "Pay Later"
  else if paid_amount ≥ (0.5 : ℚ) * total_fee then "Partial"
  else "Pending"

/-- The status branch of the fee-detail page (src/main.py,
lines 1618-1625): `if paid == total: "Paid" elif paid == 0: "Pay Later"
elif paid >= 0.5 * total: "Partial" else: "Pending"`. -/
def fee_detail_status (paid_amount total_fee : ℚ) : String :=
  if paid_amount = total_fee then "Paid"
  else if paid_amount = 0 then "Pay Later"
  else if paid_amount ≥ (0.5 : ℚ) * total_fee then "Partial"
  else "Pending"

/-- The status branch of `collect_payment` (src/main.py,
lines 1685-1692), textually the same four branches as the fee-detail
page. -/
def collect_payment_status (paid_amount total_fee : ℚ) : String :=
  if paid_amount = total_fee then "Paid"
  else if paid_amount = 0 then "Pay Later"
  else if paid_amount ≥ (0.5 : ℚ) * total_fee then "Partial"
  else "Pending"

/-- Sum of the amounts of a list of payment documents
(`sum([p.get("amount", 0) for p in payments])`). -/
def payments_sum (payments : List Payment) : ℚ :=
  (payments.map (fun p => p.amount)).sum

/-- The fee enrichment performed for each student in the fees list
(src/main.py, lines 1542-1568): a student already marked "Paid" gets the
full fee as paid amount and zero pending; otherwise the paid amount is
the sum of the student's payments and the status is derived by
`list_fees_status`. -/
def list_fees_enrich (s : Student) (course : Option Course)
    (payments : List Payment) : FeeView :=
  let total_fee := match course with | some c => c.fee | none => 0
  if s.payment_status = some "Paid" then
    { total_fee := total_fee, paid_amount := total_fee, pending_amount := 0,
      payment_status := "Paid" }
  else
    let paid_amount := payments_sum payments
    { total_fee := total_fee, paid_amount := paid_amount,
      pending_amount := total_fee - paid_amount,
      payment_status := list_fees_status s.payment_status paid_amount total_fee }

/-- The fee view computed by the fee-detail page (src/main.py,
lines 1610-1632): always sums the payments, regardless of the stored
`payment_status`. -/
def fee_detail_compute (payments : List Payment) (total_fee : ℚ) : FeeView :=
  let paid_amount := payments_sum payments
  { total_fee := total_fee, paid_amount := paid_amount,
    pending_amount := total_fee - paid_amount,
    payment_status := fee_detail_status paid_amount total_fee }

/-- The recalculation performed by `collect_payment` after inserting the
new payment (src/main.py, lines 1683-1692): the paid amount is the sum of
all payments recorded for the student, and the status is derived by
`collect_payment_status`.  No pending amount is computed at this call
site. -/
def collect_payment_recalc (payments : List Payment) (student_id : String)
    (total_fee : ℚ) : ℚ × String :=
  let ps := payments.filter (fun p => p.student_id == student_id)
  let paid_amount := payments_sum ps
  (paid_amount, collect_payment_status paid_amount total_fee)

/-- The `auth_type` field of a user document: manual signup stores a
plain string, Google signup stores a list of strings, and the OAuth
callback converts between the two (src/main.py, lines 352-362). -/
inductive AuthType where
  | str (s : String)
  | list (l : List String)
deriving DecidableEq, Repr

/-- A user document.  Google-created users have no password.  The
`created_at` timestamp is not modelled. -/
structure UserDoc where
  id : String
  name : String
  email : String
  password : Option String
  auth_type : AuthType
  role : String
  profile_complete : Bool
deriving DecidableEq, Repr

/-- An institute profile document; only the fields the modelled routes
touch (`_id` and `user_email`). -/
structure Institute where
  id : String
  user_email : String
deriving DecidableEq, Repr

/-- A faculty document; only the fields `add_material` touches. -/
structure Faculty where
  id : String
  institute_id : String
  name : String
deriving DecidableEq, Repr

/-- An entry of a test document's `students` array as written by
start_test and the marks-saving routes (src/main.py, lines 1899-1906,
2027-2030). -/
structure TestStudentMark where
  student_id : String
  marks : Int
deriving DecidableEq, Repr

/-- A test document as inserted by `add_test` (src/main.py,
lines 1791-1807) and later mutated by the test-management routes.  Form
values read with `data.get` are optional; the timestamps are not
modelled.  The keys `students`, `students_present`, `max_students` and
`marks_assigned` are absent from a freshly inserted Mongo document and
only appear once start_test or a marks route sets them; since the code
reads `students` exclusively through `test.get("students", [])` and
never reads the other three, they are modelled as always-present fields
initialised to `[]`, `0`, `0` and `false`, which is observationally
equivalent. -/
structure TestDoc where
  id : String
  title : Option String
  course_id : Option String
  subject : Option String
  faculty_name : Option String
  test_type : Option String
  duration : Option String
  num_questions : Int
  total_marks : Int
  scheduled_date : Option String
  scheduled_time : Option String
  description : Option String
  status : String
  institute_id : String
  students : List TestStudentMark
  students_present : Nat
  max_students : Nat
  marks_assigned : Bool
deriving DecidableEq, Repr

/-- An entry of an attendance document's `students` array
(src/main.py, lines 2496-2499). -/
structure AttendanceEntry where
  student_id : String
  present : Bool
deriving DecidableEq, Repr

/-- An attendance document as inserted by `add_attendance`
(src/main.py, lines 2501-2506); the timestamp is not modelled.  The
`date` comes from `data.get("date")` and is optional. -/
structure AttendanceDoc where
  id : String
  course_id : String
  date : Option String
  students : List AttendanceEntry
deriving DecidableEq, Repr

/-- The form posted to `add_test`; integer fields are assumed to parse
(the `int(...)` calls in the source). -/
structure TestForm where
  title : Option String
  course_id : Option String
  subject : Option String
  faculty : Option String
  test_type : Option String
  duration : Option String
  num_questions : Int
  total_marks : Int
  scheduled_date : Option String
  scheduled_time : Option String
  description : Option String
deriving DecidableEq, Repr

/-- An entry of a material document's `files` array
(src/main.py, line 2200). -/
structure SavedFile where
  file_name : String
  file_id : String
  file_size : Nat
deriving DecidableEq, Repr

/-- A material document as inserted by `add_material` (src/main.py,
lines 2203-2216).  The `created_at` timestamp is not modelled. -/
structure Material where
  id : String
  title : String
  subject : String
  material_type : String
  course_id : String
  course_name : String
  tags : List String
  description : String
  files : List SavedFile
  uploaded_by : String
  institute_id : String
  downloads : Nat
deriving DecidableEq, Repr

/-- A file stored in GridFS (`fs.put` keeps the content; only its
length is observable in the claims). -/
structure GridFile where
  id : String
  filename : String
  size : Nat
deriving DecidableEq, Repr

/-- An uploaded file as received by the upload routes: its filename and
the byte length of its content. -/
structure UploadFile where
  filename : String
  size : Nat
deriving DecidableEq, Repr

/-- The document store: one list per collection, in natural order. -/
structure DB where
  users : List UserDoc
  institutes : List Institute
  students : List Student
  faculties : List Faculty
  courses : List Course
  payments : List Payment
  tests : List TestDoc
  attendance : List AttendanceDoc
  materials : List Material
  gridfs : List GridFile
deriving DecidableEq, Repr

/-- The session-stored user object (`request.session["user"]`). -/
structure SessionUser where
  name : String
  email : String
  role : String
  profile_complete : Bool
deriving DecidableEq, Repr

/-- A handler's observable response: a redirect, a rendered template
(with its optional inline error string), or a raised HTTPException. -/
inductive Response where
  | redirect (url : String) (code : Nat)
  | template (tname : String) (error : Option String)
  | httpError (code : Nat) (detail : String)
deriving DecidableEq, Repr

/-- Mongo `update_one`: rewrite the first document matching the
predicate. -/
def update_first {α : Type} (p : α → Bool) (f : α → α) : List α → List α
  | [] => []
  | x :: xs => if p x then f x :: xs else x :: update_first p f xs

/-- Number of users with role platform_admin
(`count_documents(\x7b"role": "platform_admin"\x7d)`). -/
def adminCount (db : DB) : Nat :=
  db.users.countP (fun u => u.role == "platform_admin")

/-- Modelled from the spec: bcrypt password hashing is an external
primitive (the `bcrypt` library, not part of this repository); it is
modelled as a tagging function, which no claim inspects. -/
def bcrypt_hashpw (password : String) : String :=
  "bcrypt$" ++ password

/-- The manual signup handler (src/main.py, lines 142-198):
cap check for platform admins, duplicate-email check, then insert and
redirect by role.  `new_id` models the ObjectId Mongo assigns on
insertion. -/
def signup_user (new_id role uname email password : String) (db : DB) :
    Response × DB :=
  if role = "platform_admin" ∧ 2 ≤ adminCount db then
    (Response.template "index.html"
      (some "Signup blocked: Only platform admins are allowed to access!"), db)
  else if (db.users.find? (fun u => u.email == email)).isSome then
    (Response.template "index.html" (some "User already exists!"), db)
  else
    let new_user : UserDoc :=
      { id := new_id, name := uname, email := email,
        password := some (bcrypt_hashpw password),
        auth_type := AuthType.str "manual", role := role,
        profile_complete := false }
    let db1 : DB := { db with users := db.users ++ [new_user] }
    if role = "platform_admin" then
      (Response.redirect "/admin-dashboard" 302, db1)
    else
      (Response.redirect "/complete-profile" 302, db1)

/-- The user info returned by the OAuth provider for the callback. -/
structure GoogleUserInfo where
  email : String
  name : String
deriving DecidableEq, Repr

/-- The auth types of an existing user as normalised by the OAuth
callback (src/main.py, lines 352-355): a plain string becomes a
singleton list. -/
def google_auth_types (user : UserDoc) : List String :=
  match user.auth_type with
  | AuthType.str s => [s]
  | AuthType.list l => l

/-- The `update_one` of the OAuth callback (src/main.py, lines 358-361):
append "google" to the stored auth types of the matched user. -/
def google_upgrade (user : UserDoc) (db : DB) : DB :=
  { db with users :=
    (update_first (fun u => u.id == user.id)
      (fun u =>
        { u with auth_type := AuthType.list (google_auth_types user ++ ["google"]) })
      db.users) }

/-- The tail of the OAuth callback (src/main.py, lines 387-413): a
platform admin may log in only when among the first two platform
admins; then redirect by role. -/
def auth_callback_login (user1 : UserDoc) (db1 : DB) : Response × DB :=
  if user1.role = "platform_admin" then
    let allowed := (db1.users.filter (fun u => u.role == "platform_admin")).take 2
    if user1.email ∈ allowed.map (fun u => u.email) then
      (Response.redirect "/admin-dashboard" 302, db1)
    else
      (Response.template "index.html"
        (some "Access denied: Only 2 platform admins allowed."), db1)
  else if user1.role = "institute_admin" then
    if user1.profile_complete then
      (Response.redirect "/institute-dashboard" 302, db1)
    else
      (Response.redirect "/complete-profile" 302, db1)
  else
    (Response.redirect "/" 302, db1)

/-- The Google OAuth callback (src/main.py, lines 335-413): look up the
user by email; an existing user gets "google" appended to its auth
types; a new user is created with role institute_admin (the in-source
platform-admin cap check on that branch is dead code but is kept); then
the login tail runs. -/
def auth_callback (new_id : String) (info : GoogleUserInfo) (db : DB) :
    Response × DB :=
  match db.users.find? (fun u => u.email == info.email) with
  | some user =>
    let auth_types := google_auth_types user
    let user1 := if "google" ∈ auth_types then user
      else { user with auth_type := AuthType.list (auth_types ++ ["google"]) }
    let db1 : DB := if "google" ∈ auth_types then db else google_upgrade user db
    auth_callback_login user1 db1
  | none =>
    let new_user : UserDoc :=
      { id := new_id, name := info.name, email := info.email,
        password := none, auth_type := AuthType.list ["google"],
        role := "institute_admin", profile_complete := false }
    if new_user.role = "platform_admin" ∧ 2 ≤ adminCount db then
      (Response.template "index.html"
        (some "Signup blocked: Only 2 platform admins are allowed!"), db)
    else
      let db1 : DB := { db with users := db.users ++ [new_user] }
      if new_user.role = "platform_admin" then
        (Response.redirect "/admin-dashboard" 302, db1)
      else if new_user.role = "institute_admin" then
        if new_user.profile_complete then
          (Response.redirect "/institute-dashboard" 302, db1)
        else
          (Response.redirect "/complete-profile" 302, db1)
      else
        (Response.redirect "/" 302, db1)

/-- The add-student handler (src/main.py, lines 774-820): role gate,
institute lookup, course lookup scoped to the institute, then insert. -/
def add_student (sess : Option SessionUser)
    (new_id sname phone student_email course_id joined_date guardian_name
      guardian_phone village status : String) (db : DB) : Response × DB :=
  match sess with
  | none => (Response.redirect "/" 302, db)
  | some u =>
    if u.role ≠ "institute_admin" then (Response.redirect "/" 302, db)
    else
      match db.institutes.find? (fun i => i.user_email == u.email) with
      | none => (Response.httpError 400 "Institute not found", db)
      | some institute =>
        match db.courses.find? (fun c =>
            c.id == course_id && c.institute_id == institute.id) with
        | none => (Response.httpError 400 "Selected course not found", db)
        | some course_doc =>
          let doc : Student :=
            { id := new_id, name := sname, phone := phone,
              course_id := course_doc.id, course_name := course_doc.name,
              student_email := student_email, joined_date := joined_date,
              guardian_name := guardian_name, guardian_phone := guardian_phone,
              village := village, status := status,
              payment_status := some "Pending",
              institute_id := institute.id, institute_email := u.email }
          (Response.redirect "/students" 302,
            { db with students := db.students ++ [doc] })

/-- The delete-student handler (src/main.py, lines 917-943): role gate,
institute lookup, delete the student scoped to the institute (404 if
none), then delete all of the student's payments. -/
def delete_student (sess : Option SessionUser) (student_id : String)
    (db : DB) : Response × DB :=
  match sess with
  | none => (Response.redirect "/" 302, db)
  | some u =>
    if u.role ≠ "institute_admin" then (Response.redirect "/" 302, db)
    else
      match db.institutes.find? (fun i => i.user_email == u.email) with
      | none => (Response.httpError 400 "Institute not found", db)
      | some institute =>
        if db.students.any (fun s =>
            s.id == student_id && s.institute_id == institute.id) then
          let db1 : DB := { db with
            students := db.students.eraseP (fun s =>
              s.id == student_id && s.institute_id == institute.id) }
          let db2 : DB := { db1 with
            payments := db1.payments.filter (fun p =>
              ¬ p.student_id == student_id) }
          (Response.redirect "/students" 302, db2)
        else
          (Response.httpError 404 "Student not found", db)

/-- The collect-payment handler (src/main.py, lines 1642-1700): role
gate, institute lookup, insert the payment document, then recompute the
student's status from all recorded payments and store it. -/
def collect_payment (sess : Option SessionUser) (student_id : String)
    (amount : ℚ) (method date : String)
    (transaction_id receipt_number notes : Option String) (db : DB) :
    Response × DB :=
  match sess with
  | none => (Response.redirect "/" 302, db)
  | some u =>
    if u.role ≠ "institute_admin" then (Response.redirect "/" 302, db)
    else
      match db.institutes.find? (fun i => i.user_email == u.email) with
      | none => (Response.httpError 400 "Institute not found", db)
      | some institute =>
        let payment_doc : Payment :=
          { institute_id := institute.id, student_id := student_id,
            amount := amount, method := method, date := date,
            transaction_id := transaction_id,
            receipt_number := receipt_number, notes := notes }
        let db1 : DB := { db with payments := db.payments ++ [payment_doc] }
        match db1.students.find? (fun s => s.id == student_id) with
        | none => (Response.httpError 404 "Student not found", db1)
        | some student =>
          let course := db1.courses.find? (fun c => c.id == student.course_id)
          let total_fee := match course with | some c => c.fee | none => 0
          let recalc := collect_payment_recalc db1.payments student_id total_fee
          let db2 : DB := { db1 with
            students := update_first (fun s => s.id == student_id)
              (fun s => { s with payment_status := some recalc.2 }) db1.students }
          (Response.redirect "/fees" 302, db2)

/-- The fee view computed by the fee-detail route for one student of an
institute (src/main.py, lines 1603-1632), `none` when the student is not
found in the institute. -/
def fee_detail_view (student_id : String) (inst : Institute) (db : DB) :
    Option FeeView :=
  match db.students.find? (fun s =>
      s.id == student_id && s.institute_id == inst.id) with
  | none => none
  | some student =>
    let course := db.courses.find? (fun c => c.id == student.course_id)
    let total_fee := match course with | some c => c.fee | none => 0
    some (fee_detail_compute
      (db.payments.filter (fun p => p.student_id == student.id)) total_fee)

/-- The per-student enrichment the fees list performs over all students
of an institute (src/main.py, lines 1539-1568). -/
def list_fees_views (inst : Institute) (db : DB) : List FeeView :=
  (db.students.filter (fun s => s.institute_id == inst.id)).map (fun s =>
    list_fees_enrich s (db.courses.find? (fun c => c.id == s.course_id))
      (db.payments.filter (fun p => p.student_id == s.id)))

/-- The add-test handler (src/main.py, lines 1785-1810).  It performs no
session or role check: with no session user, `user["email"]` raises a
TypeError (modelled as `none`); otherwise it inserts the test document
whatever the user's role and redirects.  `new_test_id` models the
ObjectId Mongo assigns on insertion. -/
def add_test (sess : Option SessionUser) (new_test_id : String)
    (form : TestForm) (db : DB) : Option (Response × DB) :=
  match sess with
  | none => none
  | some u =>
    match db.institutes.find? (fun i => i.user_email == u.email) with
    | none => none
    | some institute =>
      let test_doc : TestDoc :=
        { id := new_test_id, title := form.title,
          course_id := form.course_id,
          subject := form.subject, faculty_name := form.faculty,
          test_type := form.test_type, duration := form.duration,
          num_questions := form.num_questions,
          total_marks := form.total_marks,
          scheduled_date := form.scheduled_date,
          scheduled_time := form.scheduled_time,
          description := form.description, status := "Scheduled",
          institute_id := institute.id, students := [],
          students_present := 0, max_students := 0,
          marks_assigned := false }
      some (Response.redirect "/tests?success=1" 302,
        { db with tests := db.tests ++ [test_doc] })

/-- The update-test handler (src/main.py, lines 1834-1855).  It takes no
session at all: any request rewrites the matched test's form fields
(leaving status, institute and students untouched) and redirects. -/
def update_test (test_id : String) (form : TestForm) (db : DB) :
    Response × DB :=
  (Response.redirect "/tests?updated=1" 302,
   { db with tests :=
      (update_first (fun t => t.id == test_id)
        (fun t =>
          { t with title := form.title
                   course_id := form.course_id
                   subject := form.subject
                   faculty_name := form.faculty
                   test_type := form.test_type
                   duration := form.duration
                   num_questions := form.num_questions
                   total_marks := form.total_marks
                   scheduled_date := form.scheduled_date
                   scheduled_time := form.scheduled_time
                   description := form.description })
        db.tests) })

/-- The start-test handler (src/main.py, lines 1887-1920).  It takes no
session at all: any request looks the test up (redirecting to /tests
when absent), collects the present students from the matching
attendance record with initial marks 0, and marks the test Ongoing. -/
def start_test (test_id : String) (db : DB) : Response × DB :=
  match db.tests.find? (fun t => t.id == test_id) with
  | none => (Response.redirect "/tests" 302, db)
  | some test =>
    let attendance := db.attendance.find? (fun a =>
      some a.course_id == test.course_id && a.date == test.scheduled_date)
    let students_data : List TestStudentMark :=
      match attendance with
      | none => []
      | some att =>
        (att.students.filter (fun s => s.present)).map (fun s =>
          { student_id := s.student_id, marks := 0 })
    (Response.redirect "/tests" 302,
     { db with tests :=
        (update_first (fun t => t.id == test_id)
          (fun t =>
            { t with students := students_data
                     students_present := students_data.length
                     max_students := students_data.length
                     status := "Ongoing" })
          db.tests) })

/-- The end-test handler (src/main.py, lines 1926-1933).  It takes no
session at all: any request unconditionally marks the matched test
Completed and redirects. -/
def end_test (test_id : String) (db : DB) : Response × DB :=
  (Response.redirect "/tests" 302,
   { db with tests :=
      (update_first (fun t => t.id == test_id)
        (fun t => { t with status := "Completed" })
        db.tests) })

/-- The analytics-save handler (src/main.py, lines 1936-1963).  It takes
no session at all.  `marks_dict` is the parsed form dictionary (the
integer values of the unique keys of shape marks[student_id], assumed to
parse like the other integer form fields): each listed student's marks
are overwritten, the rest keep their stored marks. -/
def save_test_analytics (test_id : String)
    (marks_dict : List (String × Int)) (db : DB) : Response × DB :=
  match db.tests.find? (fun t => t.id == test_id) with
  | none => (Response.redirect "/tests" 302, db)
  | some test =>
    let updated_students := test.students.map (fun s =>
      { s with marks := (marks_dict.lookup s.student_id).getD s.marks })
    (Response.redirect "/tests" 302,
     { db with tests :=
        (update_first (fun t => t.id == test_id)
          (fun t => { t with students := updated_students })
          db.tests) })

/-- The edit-marks save handler (src/main.py, lines 2015-2037).  It
takes no session at all.  `data` is the parsed form dictionary (integer
values, assumed to parse): each stored student's marks become the form
value under the key marks_{student_id}, defaulting to 0, and the test is
flagged marks_assigned. -/
def save_edited_marks (test_id : String) (data : List (String × Int))
    (db : DB) : Response × DB :=
  match db.tests.find? (fun t => t.id == test_id) with
  | none => (Response.redirect "/tests" 302, db)
  | some test =>
    let updated_students := test.students.map (fun s =>
      ({ student_id := s.student_id,
         marks := (data.lookup ("marks_" ++ s.student_id)).getD 0 } :
        TestStudentMark))
    (Response.redirect "/tests" 302,
     { db with tests :=
        (update_first (fun t => t.id == test_id)
          (fun t => { t with students := updated_students
                             marks_assigned := true })
          db.tests) })

/-- The delete-material handler (src/main.py, lines 2425-2436).  Its
signature has no session at all: any request deletes the material's
GridFS files and the material document. -/
def delete_material (material_id : String) (db : DB) : Response × DB :=
  match db.materials.find? (fun m => m.id == material_id) with
  | none => (Response.redirect "/materials" 302, db)
  | some material =>
    let db1 : DB := { db with
      gridfs := db.gridfs.filter (fun g =>
        ¬ material.files.any (fun f => f.file_id == g.id)) }
    let db2 : DB := { db1 with
      materials := db1.materials.eraseP (fun m => m.id == material_id) }
    (Response.redirect "/materials" 303, db2)

/-- Python's `os.path.splitext(filename)[1]` for a plain basename: the suffix
from the last dot, provided some earlier character of the name is not a
dot (Python ignores leading dots, so ".bashrc" has no extension). -/
def splitext_ext (filename : String) : String :=
  let cs := filename.toList
  match cs.reverse.findIdx? (fun c => c == '.') with
  | none => ""
  | some k =>
    let i := cs.length - 1 - k
    if (cs.take i).any (fun c => c != '.') then String.mk (cs.drop i) else ""

/-- Per-file upload limit (src/main.py, line 2134). -/
def MAX_FILE_SIZE : Nat := 5 * 1024 * 1024

/-- Per-batch upload limit (src/main.py, line 2135). -/
def MAX_TOTAL_SIZE : Nat := 10 * 1024 * 1024

/-- Extensions accepted by the material upload routes
(src/main.py, line 2167). -/
def ALLOWED_EXTENSIONS : List String :=
  [".pdf", ".ppt", ".pptx", ".docx", ".jpeg", ".jpg", ".png"]

/-- Python's `str.lower()` (character-wise lowercasing). -/
def str_lower (s : String) : String :=
  String.mk (s.toList.map Char.toLower)

/-- Whether `add_material` treats an uploaded file as having an allowed
extension (`os.path.splitext(file.filename)[1].lower()` in the allowed
set). -/
def allowed_ext (f : UploadFile) : Bool :=
  str_lower (splitext_ext f.filename) ∈ ALLOWED_EXTENSIONS

/-- The upload loop of `add_material` (src/main.py, lines 2171-2201):
skip files with disallowed extensions, error out on a file over
`MAX_FILE_SIZE` or when the running total would exceed
`MAX_TOTAL_SIZE`, otherwise store the file in GridFS.  On error the
files already stored stay in GridFS. -/
def add_material_loop :
    List UploadFile → List SavedFile → Nat → List GridFile →
      (Response × List GridFile) ⊕ (List SavedFile × List GridFile)
  | [], saved, _, gfs => Sum.inr (saved, gfs)
  | file :: rest, saved, total_size, gfs =>
    if allowed_ext file then
      if MAX_FILE_SIZE < file.size then
        Sum.inl (Response.template "materials.html"
          (some ("File " ++ file.filename ++ " exceeds 5 MB limit")), gfs)
      else if MAX_TOTAL_SIZE < total_size + file.size then
        Sum.inl (Response.template "materials.html"
          (some "Total upload size exceeds 10 MB limit"), gfs)
      else
        let fid := "g" ++ toString gfs.length
        add_material_loop rest
          (saved ++ [{ file_name := file.filename, file_id := fid,
                       file_size := file.size }])
          (total_size + file.size)
          (gfs ++ [{ id := fid, filename := file.filename, size := file.size }])
    else
      add_material_loop rest saved total_size gfs

/-- The tag parsing `[t.strip() for t in tags.split(",")] if tags else []`. -/
def parse_tags (tags : String) : List String :=
  if tags = "" then [] else (tags.splitOn ",").map (fun t => t.trim)

/-- The add-material handler (src/main.py, lines 2137-2219): role gate,
institute/faculty/course lookups, the upload loop, then insertion of the
material document; on a size error the handler re-renders the materials
template and inserts nothing. -/
def add_material (sess : Option SessionUser) (new_material_id : String)
    (title subject material_type course faculty_id tags description : String)
    (files : List UploadFile) (db : DB) : Response × DB :=
  match sess with
  | none => (Response.redirect "/" 302, db)
  | some u =>
    if u.role ≠ "institute_admin" then (Response.redirect "/" 302, db)
    else
      match db.institutes.find? (fun i => i.user_email == u.email) with
      | none => (Response.redirect "/" 302, db)
      | some institute =>
        match db.faculties.find? (fun f => f.id == faculty_id) with
        | none => (Response.redirect "/materials" 302, db)
        | some faculty =>
          match db.courses.find? (fun c =>
              c.id == course && c.institute_id == institute.id) with
          | none => (Response.redirect "/materials" 302, db)
          | some course_doc =>
            match add_material_loop files [] 0 db.gridfs with
            | Sum.inl (resp, gfs) => (resp, { db with gridfs := gfs })
            | Sum.inr (saved, gfs) =>
              let material_doc : Material :=
                { id := new_material_id, title := title, subject := subject,
                  material_type := material_type,
                  course_id := course_doc.id, course_name := course_doc.name,
                  tags := parse_tags tags, description := description,
                  files := saved, uploaded_by := faculty.name,
                  institute_id := institute.id, downloads := 0 }
              (Response.redirect "/materials" 303,
                { db with gridfs := gfs
                          materials := db.materials ++ [material_doc] })

example : splitext_ext "big.txt" = ".txt" := by decide
example : splitext_ext "archive.tar.gz" = ".gz" := by decide
example : splitext_ext ".bashrc" = "" := by decide
example : splitext_ext "notes" = "" := by decide
example : allowed_ext { filename := "Notes.PDF", size := 10 } = true := by decide
example : allowed_ext { filename := "big.txt", size := 10 } = false := by decide

/-! Concrete sample documents, used by counterexamples and witnesses. -/

/-- A sample institute. -/
def inst1 : Institute := { id := "i1", user_email := "admin@inst1.example" }

/-- A sample course of `inst1` with fee 100. -/
def course1 : Course :=
  { id := "c1", institute_id := "i1", name := "Math", fee := 100 }

/-- A sample student of `inst1` manually marked "Paid". -/
def student1 : Student :=
  { id := "s1", name := "Asha", phone := "900", course_id := "c1",
    course_name := "Math", student_email := "asha@example.com",
    joined_date := "2025-01-01", guardian_name := "G",
    guardian_phone := "901", village := "V", status := "Active",
    payment_status := some "Paid", institute_id := "i1",
    institute_email := "admin@inst1.example" }

/-- A session for the admin of `inst1`. -/
def sessionAdmin : SessionUser :=
  { name := "A", email := "admin@inst1.example",
    role := "institute_admin", profile_complete := true }

/-- A sample database: one institute, its course, the marked-"Paid"
student, and no payments. -/
def db1 : DB :=
  { users := [], institutes := [inst1], students := [student1],
    faculties := [], courses := [course1], payments := [], tests := [],
    attendance := [], materials := [], gridfs := [] }

/-! Helper lemmas about the status functions. -/

/-- At a paid amount exactly half the total fee, the fees-list status is
never "Pending". -/
lemma list_fees_status_at_half (prior : Option String) (paid total : ℚ)
    (hp : paid = (0.5 : ℚ) * total) :
    list_fees_status prior paid total ≠ "Pending" := by
  unfold list_fees_status
  split_ifs with h1 h2 h3
  · simp
  · push_neg at h1
    exfalso
    linarith
  · simp
  · exfalso
    exact h3 (by linarith)

/-- At a paid amount exactly half the total fee, the fee-detail status
is never "Pending". -/
lemma fee_detail_status_at_half (paid total : ℚ)
    (hp : paid = (0.5 : ℚ) * total) :
    fee_detail_status paid total ≠ "Pending" := by
  unfold fee_detail_status
  split_ifs with h1 h2 h3
  · simp
  · exfalso
    exact h1 (by linarith)
  · simp
  · exfalso
    exact h3 (by linarith)

/-- The fee-detail and collect-payment status functions are the same
function. -/
lemma fee_detail_eq_collect (paid total : ℚ) :
    fee_detail_status paid total = collect_payment_status paid total := rfl

/-- C1.  The claim labels the ≥50% tier "Pending"; the code labels it
"Partial" at all three call sites: at paid 50 of total 100 every site
reports "Partial", not "Pending". -/
theorem C1_counterexample :
    fee_detail_status 50 100 = "Partial" ∧
    list_fees_status none 50 100 = "Partial" ∧
    collect_payment_status 50 100 = "Partial" ∧
    "Partial" ≠ "Pending" := by
  refine ⟨?_, ?_, ?_, by decide⟩ <;>
    norm_num [fee_detail_status, list_fees_status, collect_payment_status]

/-- C1 (amended).  The fee-status decision tables actually implemented:
with a positive total fee, the fees list reports "Paid" when paid ≥
total; the fee-detail page and collect-payment report "Paid" exactly at
paid = total and report "Partial" on overpayment; all three report
"Partial" on the tier from 50% up to (excluding) the full fee and
"Pending" strictly below 50%; at zero paid the fees list keeps the
stored status (default "Pay Later") while the other two report
"Pay Later"; and a student already marked "Paid" keeps status "Paid" in
the fees list. -/
theorem C1_fee_status_tables (prior : Option String) (paid total : ℚ)
    (hpos : 0 < total) :
    (total ≤ paid → list_fees_status prior paid total = "Paid") ∧
    (fee_detail_status total total = "Paid" ∧
      collect_payment_status total total = "Paid") ∧
    (total < paid → fee_detail_status paid total = "Partial" ∧
      collect_payment_status paid total = "Partial") ∧
    ((0.5 : ℚ) * total ≤ paid → paid < total →
      list_fees_status prior paid total = "Partial" ∧
      fee_detail_status paid total = "Partial" ∧
      collect_payment_status paid total = "Partial") ∧
    (0 < paid → paid < (0.5 : ℚ) * total →
      list_fees_status prior paid total = "Pending" ∧
      fee_detail_status paid total = "Pending" ∧
      collect_payment_status paid total = "Pending") ∧
    (list_fees_status prior 0 total = prior.getD "Pay Later" ∧
      fee_detail_status 0 total = "Pay Later" ∧
      collect_payment_status 0 total = "Pay Later") ∧
    (∀ (s : Student) (c : Option Course) (ps : List Payment),
      s.payment_status = some "Paid" →
      (list_fees_enrich s c ps).payment_status = "Paid") := by
  refine ⟨?_, ?_, ?_, ?_, ?_, ?_, ?_⟩
  · intro h
    unfold list_fees_status
    split_ifs with h1
    · rfl
    · exact absurd h h1
  · constructor
    · unfold fee_detail_status
      simp
    · unfold collect_payment_status
      simp
  · intro h
    have hd : fee_detail_status paid total = "Partial" := by
      unfold fee_detail_status
      split_ifs with h1 h2 h3
      · exfalso; linarith
      · exfalso; linarith
      · rfl
      · exact absurd (by linarith : paid ≥ (0.5 : ℚ) * total) h3
    exact ⟨hd, by rw [← fee_detail_eq_collect]; exact hd⟩
  · intro hhalf hlt
    have hd : fee_detail_status paid total = "Partial" := by
      unfold fee_detail_status
      split_ifs with h1 h2
      · exfalso; linarith
      · exfalso; linarith
      · rfl
    refine ⟨?_, hd, by rw [← fee_detail_eq_collect]; exact hd⟩
    unfold list_fees_status
    split_ifs with h1 h2
    · exfalso; linarith
    · exfalso; linarith
    · rfl
  · intro hpos2 hlt
    have hd : fee_detail_status paid total = "Pending" := by
      unfold fee_detail_status
      split_ifs with h1 h2 h3
      · exfalso; linarith
      · exfalso; linarith
      · exfalso; linarith
      · rfl
    refine ⟨?_, hd, by rw [← fee_detail_eq_collect]; exact hd⟩
    unfold list_fees_status
    split_ifs with h1 h2 h3
    · exfalso; linarith
    · exfalso; linarith
    · exfalso; linarith
    · rfl
  · have hd : fee_detail_status 0 total = "Pay Later" := by
      unfold fee_detail_status
      split_ifs with h1 h2
      · exfalso; linarith
      · rfl
      · exact absurd rfl h2
      · exact absurd rfl h2
    refine ⟨?_, hd, by rw [← fee_detail_eq_collect]; exact hd⟩
    unfold list_fees_status
    split_ifs with h1 h2
    · exfalso; linarith
    · rfl
    · exact absurd rfl h2
    · exact absurd rfl h2
  · intro s c ps h
    simp [list_fees_enrich, h]

/-- C1 (witness): the amended decision table applied at paid 50 of
total 100, landing every call site on "Partial". -/
theorem C1_fee_status_tables_witness :
    list_fees_status none 50 100 = "Partial" ∧
    fee_detail_status 50 100 = "Partial" ∧
    collect_payment_status 50 100 = "Partial" :=
  (C1_fee_status_tables none 50 100 (by norm_num)).2.2.2.1
    (by norm_num) (by norm_num)

/-- C2.  The claim says a student manually marked "Paid" has
paid_amount equal to the full course fee at every fee-computing call
site; the fee-detail page ignores the mark: for `student1` (marked
"Paid", fee 100, no recorded payments) it computes paid_amount 0. -/
theorem C2_counterexample :
    student1.payment_status = some "Paid" ∧
    course1.fee = 100 ∧
    (fee_detail_view "s1" inst1 db1).map FeeView.paid_amount = some 0 ∧
    (0 : ℚ) ≠ 100 := by
  refine ⟨rfl, rfl, ?_, by norm_num⟩
  norm_num [fee_detail_view, fee_detail_compute, payments_sum, db1,
    student1, inst1, course1]

/-- C2 (amended).  In the fees list, a student manually marked "Paid"
has paid_amount equal to the full course fee; otherwise, and in the
fee-detail computation always (even for manually marked students),
paid_amount is the sum of the recorded payments, and so is the amount
recomputed by collect_payment over the payments recorded for the
student; pending_amount equals total_fee minus paid_amount at every
site that computes it (collect_payment computes none). -/
theorem C2_paid_pending_amounts (s : Student) (c : Option Course)
    (ps ps2 : List Payment) (t : ℚ) (sid : String) :
    ((s.payment_status = some "Paid" →
        (list_fees_enrich s c ps).paid_amount =
          (list_fees_enrich s c ps).total_fee ∧
        (list_fees_enrich s c ps).pending_amount =
          (list_fees_enrich s c ps).total_fee -
            (list_fees_enrich s c ps).paid_amount) ∧
      (s.payment_status ≠ some "Paid" →
        (list_fees_enrich s c ps).paid_amount = payments_sum ps ∧
        (list_fees_enrich s c ps).pending_amount =
          (list_fees_enrich s c ps).total_fee - payments_sum ps)) ∧
    ((fee_detail_compute ps2 t).paid_amount = payments_sum ps2 ∧
      (fee_detail_compute ps2 t).pending_amount = t - payments_sum ps2) ∧
    (collect_payment_recalc ps2 sid t).1 =
      payments_sum (ps2.filter (fun p => p.student_id == sid)) := by
  refine ⟨⟨?_, ?_⟩, ⟨rfl, rfl⟩, rfl⟩
  · intro h
    simp [list_fees_enrich, h]
  · intro h
    simp [list_fees_enrich, h]

/-- C2 (witness): the amended statement applied to `student1` (marked
"Paid"): in the fees list its paid amount is the full fee. -/
theorem C2_paid_pending_amounts_witness :
    (list_fees_enrich student1 (some course1) []).paid_amount =
      (list_fees_enrich student1 (some course1) []).total_fee :=
  ((C2_paid_pending_amounts student1 (some course1) [] [] 100 "s1").1.1
    rfl).1

/-- C3.  The claim exhibits an exact-50% paid amount on which one call
site says "Partial" and another "Pending"; in fact at paid exactly half
the total fee no call site ever reports "Pending". -/
theorem C3_counterexample :
    ¬ ∃ (prior : Option String) (paid total : ℚ),
        paid = (0.5 : ℚ) * total ∧
        "Partial" ∈ [list_fees_status prior paid total,
          fee_detail_status paid total, collect_payment_status paid total] ∧
        "Pending" ∈ [list_fees_status prior paid total,
          fee_detail_status paid total, collect_payment_status paid total] := by
  rintro ⟨prior, paid, total, hp, -, hpend⟩
  have h1 := list_fees_status_at_half prior paid total hp
  have h2 := fee_detail_status_at_half paid total hp
  have h3 : collect_payment_status paid total ≠ "Pending" := by
    rw [← fee_detail_eq_collect]
    exact h2
  simp only [List.mem_cons, List.not_mem_nil, or_false] at hpend
  rcases hpend with h | h | h
  · exact h1 h.symm
  · exact h2 h.symm
  · exact h3 h.symm

/-- C3 (amended).  The three embedded fee-status functions are not all
extensionally equal: fee-detail and collect-payment implement the same
function, but the fees list differs from them (on overpayment, paid 150
of total 100, it says "Paid" where they say "Partial"); at paid exactly
half the total fee, however, no call site reports "Pending". -/
theorem C3_call_sites (prior : Option String) (paid total : ℚ) :
    (fee_detail_status paid total = collect_payment_status paid total) ∧
    (list_fees_status none 150 100 = "Paid" ∧
      fee_detail_status 150 100 = "Partial" ∧
      list_fees_status none 0 100 = "Pay Later" ∧
      list_fees_status (some "Pending") 0 100 = "Pending" ∧
      fee_detail_status 0 100 = "Pay Later") ∧
    (paid = (0.5 : ℚ) * total →
      list_fees_status prior paid total ≠ "Pending" ∧
      fee_detail_status paid total ≠ "Pending" ∧
      collect_payment_status paid total ≠ "Pending") := by
  refine ⟨rfl, ?_, ?_⟩
  · refine ⟨?_, ?_, ?_, ?_, ?_⟩ <;>
      norm_num [list_fees_status, fee_detail_status]
  · intro hp
    refine ⟨list_fees_status_at_half prior paid total hp,
      fee_detail_status_at_half paid total hp, ?_⟩
    rw [← fee_detail_eq_collect]
    exact fee_detail_status_at_half paid total hp

/-- C3 (witness): the amended statement applied at paid 2 of total 4
(exactly half): the fees list does not report "Pending" there. -/
theorem C3_call_sites_witness :
    list_fees_status none 2 4 ≠ "Pending" :=
  ((C3_call_sites none 2 4).2.2 (by norm_num)).1

/-- Inserting one user changes the platform-admin count by one exactly
when the new user is a platform admin. -/
lemma adminCount_insert (db : DB) (u : UserDoc) :
    adminCount { db with users := db.users ++ [u] } =
      adminCount db + (if u.role == "platform_admin" then 1 else 0) := by
  simp [adminCount, List.countP_append, List.countP_cons]

/-- Lemma: `update_first` preserves any count whose predicate the update does
not change. -/
lemma countP_update_first {α : Type} (p q : α → Bool) (f : α → α)
    (l : List α) (h : ∀ x, q (f x) = q x) :
    (update_first p f l).countP q = l.countP q := by
  induction l with
  | nil => rfl
  | cons x xs ih =>
    unfold update_first
    split_ifs with hx
    · simp [List.countP_cons, h]
    · simp [List.countP_cons, ih]

/-- The auth-type upgrade of the OAuth callback does not change the
platform-admin count. -/
lemma adminCount_google_upgrade (user : UserDoc) (db : DB) :
    adminCount (google_upgrade user db) = adminCount db := by
  unfold adminCount google_upgrade
  exact countP_update_first _ _ _ _ (fun x => rfl)

/-- The login tail of the OAuth callback returns its database
unchanged. -/
lemma auth_callback_login_snd (user1 : UserDoc) (db1 : DB) :
    (auth_callback_login user1 db1).2 = db1 := by
  unfold auth_callback_login
  dsimp only
  split_ifs <;> rfl

/-- A sample platform-admin user. -/
def padmin1 : UserDoc :=
  { id := "u1", name := "P1", email := "p1@example.com",
    password := some "h1", auth_type := AuthType.str "manual",
    role := "platform_admin", profile_complete := false }

/-- A second sample platform-admin user. -/
def padmin2 : UserDoc :=
  { id := "u2", name := "P2", email := "p2@example.com",
    password := some "h2", auth_type := AuthType.str "manual",
    role := "platform_admin", profile_complete := false }

/-- A sample database already holding two platform admins. -/
def db2 : DB :=
  { users := [padmin1, padmin2], institutes := [], students := [],
    faculties := [], courses := [], payments := [], tests := [],
    attendance := [], materials := [], gridfs := [] }

/-- C4.  The platform-admin population never exceeds two: with two
platform admins present, a manual signup with role platform_admin is
rejected with an error page and inserts nothing; any manual signup
preserves the cap; and the OAuth callback never changes the number of
platform admins (new Google users are institute admins). -/
theorem C4_platform_admin_cap (db : DB)
    (new_id role uname email password : String) (info : GoogleUserInfo) :
    (2 ≤ adminCount db → role = "platform_admin" →
      signup_user new_id role uname email password db =
        (Response.template "index.html"
          (some "Signup blocked: Only platform admins are allowed to access!"),
         db)) ∧
    (adminCount db ≤ 2 →
      adminCount (signup_user new_id role uname email password db).2 ≤ 2) ∧
    adminCount (auth_callback new_id info db).2 = adminCount db := by
  refine ⟨?_, ?_, ?_⟩
  · intro hc hr
    unfold signup_user
    rw [if_pos ⟨hr, hc⟩]
  · intro hle
    unfold signup_user
    split_ifs with hcap hdup hrole
    · exact hle
    · exact hle
    · rw [adminCount_insert]
      have h1 : ¬ 2 ≤ adminCount db := fun h2 => hcap ⟨hrole, h2⟩
      simp only [hrole, beq_self_eq_true, if_true]
      omega
    · rw [adminCount_insert]
      have h2 : (role == "platform_admin") = false := by
        simpa using hrole
      simp only [h2, Bool.false_eq_true, if_false]
      omega
  · unfold auth_callback
    cases hfind : db.users.find? (fun u => u.email == info.email) with
    | none =>
      simp [adminCount_insert]
    | some user =>
      dsimp only
      rw [auth_callback_login_snd]
      split_ifs with hg
      · rfl
      · exact adminCount_google_upgrade user db

/-- C4 (witness): on `db2`, which holds two platform admins, a third
platform-admin signup is rejected and the database is unchanged. -/
theorem C4_platform_admin_cap_witness :
    signup_user "u3" "platform_admin" "P3" "p3@example.com" "pw" db2 =
      (Response.template "index.html"
        (some "Signup blocked: Only platform admins are allowed to access!"),
       db2) :=
  (C4_platform_admin_cap db2 "u3" "platform_admin" "P3" "p3@example.com"
    "pw" { email := "g@example.com", name := "G" }).1 (by decide) rfl

/-- A sample material document with no stored files. -/
def material1 : Material :=
  { id := "m1", title := "Algebra notes", subject := "Math",
    material_type := "Notes", course_id := "c1", course_name := "Math",
    tags := [], description := "", files := [], uploaded_by := "F",
    institute_id := "i1", downloads := 0 }

/-- A sample database holding one material and nothing else. -/
def db3 : DB :=
  { users := [], institutes := [], students := [], faculties := [],
    courses := [], payments := [], tests := [], attendance := [],
    materials := [material1], gridfs := [] }

/-- C5.  The claim says every handler checks the session first and, on a
session without a proper user, 302-redirects home without touching any
collection.  delete_material takes no session at all: on `db3` it
deletes the material document and answers a 303 redirect to /materials,
whatever the request's session. -/
theorem C5_counterexample :
    db3.materials = [material1] ∧
    (delete_material "m1" db3).2.materials = [] ∧
    (delete_material "m1" db3).1 = Response.redirect "/materials" 303 ∧
    Response.redirect "/materials" 303 ≠ Response.redirect "/" 302 := by
  decide

/-- A sample scheduled test of `inst1` over course c1. -/
def test1 : TestDoc :=
  { id := "t1", title := some "Algebra Test", course_id := some "c1",
    subject := some "Math", faculty_name := some "Dr. F",
    test_type := some "Unit", duration := some "60",
    num_questions := 10, total_marks := 100,
    scheduled_date := some "2025-04-01",
    scheduled_time := some "10:00", description := none,
    status := "Scheduled", institute_id := "i1", students := [],
    students_present := 0, max_students := 0, marks_assigned := false }

/-- A sample attendance record for course c1 on the test's date: s1
present, s2 absent. -/
def attendance1 : AttendanceDoc :=
  { id := "a1", course_id := "c1", date := some "2025-04-01",
    students := [{ student_id := "s1", present := true },
                 { student_id := "s2", present := false }] }

/-- A sample database holding the scheduled test and its attendance. -/
def db6 : DB :=
  { users := [], institutes := [inst1], students := [],
    faculties := [], courses := [course1], payments := [],
    tests := [test1], attendance := [attendance1], materials := [],
    gridfs := [] }

/-- C5 (amended).  Among the mutating handlers, add_student,
delete_student, collect_payment and add_material do check the session
first: with a missing session user or a role other than
institute_admin they return a 302 redirect to the home page and leave
the database unchanged.  But seven mutating handlers perform no
session/role check at all: update_test, start_test, end_test,
save_test_analytics, save_edited_marks and delete_material take no
session whatsoever — any request applies their write to the tests
(respectively materials) collection and they never answer the home
redirect — and add_test reads the session only to look up the
institute, inserting the test document whatever the user's role, and
crashes instead of redirecting when the session has no user. -/
theorem C5_session_guards (sess : Option SessionUser) (db : DB)
    (new_id sname phone semail course_id jd gn gp village xstatus : String)
    (student_id : String) (amount : ℚ) (method date : String)
    (tid rno pnotes : Option String)
    (mid mtitle msubject mtype mcourse mfid mtags mdesc : String)
    (files : List UploadFile) (form : TestForm)
    (hbad : ∀ u, sess = some u → u.role ≠ "institute_admin") :
    add_student sess new_id sname phone semail course_id jd gn gp village
        xstatus db = (Response.redirect "/" 302, db) ∧
    delete_student sess student_id db = (Response.redirect "/" 302, db) ∧
    collect_payment sess student_id amount method date tid rno pnotes db =
      (Response.redirect "/" 302, db) ∧
    add_material sess mid mtitle msubject mtype mcourse mfid mtags mdesc
        files db = (Response.redirect "/" 302, db) ∧
    (∀ u institute ntid, sess = some u →
      db.institutes.find? (fun i => i.user_email == u.email) =
        some institute →
      add_test sess ntid form db =
        some (Response.redirect "/tests?success=1" 302,
        { db with tests := db.tests ++
          [{ id := ntid, title := form.title, course_id := form.course_id,
             subject := form.subject, faculty_name := form.faculty,
             test_type := form.test_type, duration := form.duration,
             num_questions := form.num_questions,
             total_marks := form.total_marks,
             scheduled_date := form.scheduled_date,
             scheduled_time := form.scheduled_time,
             description := form.description, status := "Scheduled",
             institute_id := institute.id, students := [],
             students_present := 0, max_students := 0,
             marks_assigned := false }] })) ∧
    (∀ ntid, add_test none ntid form db = none) ∧
    (∀ tid2 (form2 : TestForm) (db7 : DB),
      update_test tid2 form2 db7 =
        (Response.redirect "/tests?updated=1" 302,
         { db7 with tests :=
            (update_first (fun t => t.id == tid2)
              (fun t =>
                { t with title := form2.title
                         course_id := form2.course_id
                         subject := form2.subject
                         faculty_name := form2.faculty
                         test_type := form2.test_type
                         duration := form2.duration
                         num_questions := form2.num_questions
                         total_marks := form2.total_marks
                         scheduled_date := form2.scheduled_date
                         scheduled_time := form2.scheduled_time
                         description := form2.description })
              db7.tests) })) ∧
    (∀ tid2 (db7 : DB),
      end_test tid2 db7 =
        (Response.redirect "/tests" 302,
         { db7 with tests :=
            (update_first (fun t => t.id == tid2)
              (fun t => { t with status := "Completed" })
              db7.tests) })) ∧
    (∀ tid2 (db7 : DB) (md : List (String × Int)),
      (start_test tid2 db7).1 = Response.redirect "/tests" 302 ∧
      (save_test_analytics tid2 md db7).1 = Response.redirect "/tests" 302 ∧
      (save_edited_marks tid2 md db7).1 = Response.redirect "/tests" 302) ∧
    ((start_test "t1" db6).2.tests =
      [{ test1 with students := [{ student_id := "s1", marks := 0 }]
                    students_present := 1
                    max_students := 1
                    status := "Ongoing" }] ∧
     (save_edited_marks "t1" [("marks_s1", 87)]
        (start_test "t1" db6).2).2.tests =
      [{ test1 with students := [{ student_id := "s1", marks := 87 }]
                    students_present := 1
                    max_students := 1
                    status := "Ongoing"
                    marks_assigned := true }] ∧
     (save_test_analytics "t1" [("s1", 93)]
        (start_test "t1" db6).2).2.tests =
      [{ test1 with students := [{ student_id := "s1", marks := 93 }]
                    students_present := 1
                    max_students := 1
                    status := "Ongoing" }]) ∧
    (∀ material_id, (delete_material material_id db).1 ≠
      Response.redirect "/" 302) := by
  refine ⟨?_, ?_, ?_, ?_, ?_, fun ntid => rfl, fun tid2 form2 db7 => rfl,
    fun tid2 db7 => rfl, ?_, by decide, ?_⟩
  · cases sess with
    | none => rfl
    | some u =>
      unfold add_student
      dsimp only
      rw [if_pos (hbad u rfl)]
  · cases sess with
    | none => rfl
    | some u =>
      unfold delete_student
      dsimp only
      rw [if_pos (hbad u rfl)]
  · cases sess with
    | none => rfl
    | some u =>
      unfold collect_payment
      dsimp only
      rw [if_pos (hbad u rfl)]
  · cases sess with
    | none => rfl
    | some u =>
      unfold add_material
      dsimp only
      rw [if_pos (hbad u rfl)]
  · intro u institute ntid hu hfind
    subst hu
    unfold add_test
    dsimp only
    rw [hfind]
  · intro tid2 db7 md
    refine ⟨?_, ?_, ?_⟩
    · unfold start_test
      cases db7.tests.find? (fun t => t.id == tid2) with
      | none => rfl
      | some t => rfl
    · unfold save_test_analytics
      cases db7.tests.find? (fun t => t.id == tid2) with
      | none => rfl
      | some t => rfl
    · unfold save_edited_marks
      cases db7.tests.find? (fun t => t.id == tid2) with
      | none => rfl
      | some t => rfl
  · intro material_id
    unfold delete_material
    cases db.materials.find? (fun m => m.id == material_id) with
    | none => simp
    | some material => simp

/-- C5 (witness): with no session user at all, add_student on `db1`
redirects home and leaves the database unchanged. -/
theorem C5_session_guards_witness :
    add_student none "s9" "N" "900" "n@example.com" "c1" "2025-01-02" "G"
        "901" "V" "Active" db1 = (Response.redirect "/" 302, db1) :=
  (C5_session_guards none db1 "s9" "N" "900" "n@example.com" "c1"
    "2025-01-02" "G" "901" "V" "Active" "s1" 10 "Cash" "2025-01-02" none
    none none "m9" "T" "S" "Notes" "c1" "f1" "" "" []
    { title := none, course_id := none, subject := none, faculty := none,
      test_type := none, duration := none, num_questions := 0,
      total_marks := 0, scheduled_date := none, scheduled_time := none,
      description := none }
    (fun _ h => nomatch h)).1

/-- A sample faculty member of `inst1`. -/
def faculty1 : Faculty := { id := "f1", institute_id := "i1", name := "Dr. F" }

/-- A sample database ready for material uploads: institute, faculty and
course present, no materials yet. -/
def db4 : DB :=
  { users := [], institutes := [inst1], students := [],
    faculties := [faculty1], courses := [course1], payments := [],
    tests := [], attendance := [], materials := [], gridfs := [] }

/-- A 6 MB upload whose ".txt" extension is not allowed. -/
def bigtxt : UploadFile := { filename := "big.txt", size := 6 * 1024 * 1024 }

/-- A 6 MB upload with an allowed ".pdf" extension. -/
def bigpdf : UploadFile := { filename := "big.pdf", size := 6 * 1024 * 1024 }

/-- Total size of the allowed-extension files of a batch. -/
def allowed_total (files : List UploadFile) : Nat :=
  ((files.filter allowed_ext).map (fun f => f.size)).sum

/-- If some allowed-extension file of the batch exceeds the per-file
limit, the upload loop returns an inline-error template. -/
lemma add_material_loop_big (files : List UploadFile) :
    ∀ (saved : List SavedFile) (total_size : Nat) (gfs : List GridFile),
    (∃ f ∈ files, allowed_ext f ∧ MAX_FILE_SIZE < f.size) →
    ∃ e gfs2, add_material_loop files saved total_size gfs =
      Sum.inl (Response.template "materials.html" (some e), gfs2) := by
  induction files with
  | nil =>
    rintro saved total_size gfs ⟨f, hf, -⟩
    exact absurd hf (List.not_mem_nil f)
  | cons f0 rest ih =>
    rintro saved total_size gfs ⟨f, hf, hfa, hfs⟩
    unfold add_material_loop
    split_ifs with h1 h2 h3
    · exact ⟨_, _, rfl⟩
    · exact ⟨_, _, rfl⟩
    · dsimp only
      rcases List.mem_cons.mp hf with h | h
      · subst h
        exact absurd hfs h2
      · exact ih _ _ _ ⟨f, h, hfa, hfs⟩
    · rcases List.mem_cons.mp hf with h | h
      · subst h
        exact absurd hfa h1
      · exact ih _ _ _ ⟨f, h, hfa, hfs⟩

/-- If the allowed-extension files of the batch together exceed the
per-batch limit, the upload loop returns an inline-error template. -/
lemma add_material_loop_total (files : List UploadFile) :
    ∀ (saved : List SavedFile) (total_size : Nat) (gfs : List GridFile),
    total_size ≤ MAX_TOTAL_SIZE →
    MAX_TOTAL_SIZE < total_size + allowed_total files →
    ∃ e gfs2, add_material_loop files saved total_size gfs =
      Sum.inl (Response.template "materials.html" (some e), gfs2) := by
  induction files with
  | nil =>
    intro saved total_size gfs hle hgt
    simp [allowed_total] at hgt
    omega
  | cons f0 rest ih =>
    intro saved total_size gfs hle hgt
    unfold add_material_loop
    split_ifs with h1 h2 h3
    · exact ⟨_, _, rfl⟩
    · exact ⟨_, _, rfl⟩
    · dsimp only
      refine ih _ _ _ (Nat.not_lt.mp h3) ?_
      have heq : allowed_total (f0 :: rest) = f0.size + allowed_total rest := by
        simp [allowed_total, List.filter_cons, h1]
      omega
    · refine ih _ _ _ hle ?_
      have heq : allowed_total (f0 :: rest) = allowed_total rest := by
        simp [allowed_total, List.filter_cons, h1]
      omega

/-- C6.  The claim says every individual file over 5 MB is rejected with
an inline error and no material document is created; a 6 MB file with a
disallowed ".txt" extension is silently skipped instead: the upload
succeeds with a 303 redirect and a material document is inserted. -/
theorem C6_counterexample :
    MAX_FILE_SIZE < bigtxt.size ∧
    (add_material (some sessionAdmin) "m9" "T" "S" "Notes" "c1" "f1" "" ""
      [bigtxt] db4).1 = Response.redirect "/materials" 303 ∧
    (add_material (some sessionAdmin) "m9" "T" "S" "Notes" "c1" "f1" "" ""
      [bigtxt] db4).2.materials.length = 1 := by
  decide

/-- C6 (amended).  For an authorized upload whose lookups succeed: if
some file with an allowed extension exceeds 5 MB, or the
allowed-extension files together exceed 10 MB, the handler answers an
inline-error materials template and inserts no material document.
Files with disallowed extensions are skipped without any size check. -/
theorem C6_upload_limits (u : SessionUser) (db : DB)
    (mid mtitle msubject mtype mcourse mfid mtags mdesc : String)
    (files : List UploadFile) (institute : Institute) (faculty : Faculty)
    (course_doc : Course)
    (hrole : u.role = "institute_admin")
    (hinst : db.institutes.find? (fun i => i.user_email == u.email) =
      some institute)
    (hfac : db.faculties.find? (fun f => f.id == mfid) = some faculty)
    (hcourse : db.courses.find? (fun c =>
      c.id == mcourse && c.institute_id == institute.id) = some course_doc)
    (hbound : (∃ f ∈ files, allowed_ext f ∧ MAX_FILE_SIZE < f.size) ∨
      MAX_TOTAL_SIZE < allowed_total files) :
    (add_material (some u) mid mtitle msubject mtype mcourse mfid mtags
        mdesc files db).2.materials = db.materials ∧
    ∃ e, (add_material (some u) mid mtitle msubject mtype mcourse mfid
        mtags mdesc files db).1 =
      Response.template "materials.html" (some e) := by
  have hloop : ∃ e gfs2, add_material_loop files [] 0 db.gridfs =
      Sum.inl (Response.template "materials.html" (some e), gfs2) := by
    rcases hbound with h | h
    · exact add_material_loop_big files [] 0 db.gridfs h
    · exact add_material_loop_total files [] 0 db.gridfs (by norm_num [MAX_TOTAL_SIZE]) (by omega)
  obtain ⟨e, gfs2, hloop⟩ := hloop
  unfold add_material
  dsimp only
  rw [if_neg (fun h => h hrole)]
  simp only [hinst, hfac, hcourse, hloop]
  exact ⟨trivial, e, rfl⟩

/-- C6 (witness): a single 6 MB ".pdf" file on `db4` is rejected with an
inline error and no material document is inserted. -/
theorem C6_upload_limits_witness :
    (add_material (some sessionAdmin) "m9" "T" "S" "Notes" "c1" "f1" "" ""
        [bigpdf] db4).2.materials = db4.materials ∧
    ∃ e, (add_material (some sessionAdmin) "m9" "T" "S" "Notes" "c1" "f1"
        "" "" [bigpdf] db4).1 =
      Response.template "materials.html" (some e) :=
  C6_upload_limits sessionAdmin db4 "m9" "T" "S" "Notes" "c1" "f1" "" ""
    [bigpdf] inst1 faculty1 course1 rfl (by decide) (by decide) (by decide)
    (Or.inl ⟨bigpdf, by decide, by decide, by decide⟩)

/-- C7.  An authorized add-student request whose course lookup succeeds
inserts exactly one student document, scoped to the caller's institute,
and answers a redirect to /students. -/
theorem C7_add_student_scoped (u : SessionUser) (db : DB)
    (new_id sname phone semail course_id jd gn gp village xstatus : String)
    (institute : Institute) (course_doc : Course)
    (hrole : u.role = "institute_admin")
    (hinst : db.institutes.find? (fun i => i.user_email == u.email) =
      some institute)
    (hcourse : db.courses.find? (fun c =>
      c.id == course_id && c.institute_id == institute.id) = some course_doc) :
    ∃ doc : Student,
      (add_student (some u) new_id sname phone semail course_id jd gn gp
        village xstatus db).2 = { db with students := db.students ++ [doc] } ∧
      doc.institute_id = institute.id ∧
      (add_student (some u) new_id sname phone semail course_id jd gn gp
        village xstatus db).1 = Response.redirect "/students" 302 := by
  unfold add_student
  dsimp only
  rw [if_neg (fun h => h hrole)]
  simp only [hinst, hcourse]
  exact ⟨_, rfl, rfl, trivial⟩

/-- C7 (witness): adding a student to `db1` (whose admin owns course
c1) appends one document carrying institute id i1. -/
theorem C7_add_student_scoped_witness :
    ∃ doc : Student,
      (add_student (some sessionAdmin) "s2" "Bina" "902" "b@example.com"
        "c1" "2025-02-01" "G2" "903" "V" "Active" db1).2 =
        { db1 with students := db1.students ++ [doc] } ∧
      doc.institute_id = inst1.id ∧
      (add_student (some sessionAdmin) "s2" "Bina" "902" "b@example.com"
        "c1" "2025-02-01" "G2" "903" "V" "Active" db1).1 =
        Response.redirect "/students" 302 :=
  C7_add_student_scoped sessionAdmin db1 "s2" "Bina" "902" "b@example.com"
    "c1" "2025-02-01" "G2" "903" "V" "Active" inst1 course1 rfl
    (by decide) (by decide)

/-- C8.  The claim promises the "User already exists!" error for every
duplicate-email signup; the platform-admin cap check runs first, so on
`db2` (two platform admins, one with email p1@example.com) a
platform-admin signup with that same email gets the cap error
instead. -/
theorem C8_counterexample :
    (∃ u ∈ db2.users, u.email = "p1@example.com") ∧
    (signup_user "u9" "platform_admin" "N" "p1@example.com" "pw" db2).1 ≠
      Response.template "index.html" (some "User already exists!") ∧
    (signup_user "u9" "platform_admin" "N" "p1@example.com" "pw" db2).1 =
      Response.template "index.html"
        (some "Signup blocked: Only platform admins are allowed to access!") := by
  decide

/-- C8 (amended).  A manual signup whose email already belongs to an
existing user inserts nothing and leaves the users collection
unchanged; it renders the index template with "User already exists!"
unless the request also carries role platform_admin while two platform
admins exist, in which case the cap error is rendered instead. -/
theorem C8_duplicate_email (db : DB)
    (new_id role uname email password : String)
    (hdup : ∃ u2 ∈ db.users, u2.email = email) :
    (signup_user new_id role uname email password db).2 = db ∧
    ((signup_user new_id role uname email password db).1 =
        Response.template "index.html" (some "User already exists!") ∨
      (role = "platform_admin" ∧ 2 ≤ adminCount db ∧
        (signup_user new_id role uname email password db).1 =
          Response.template "index.html"
            (some "Signup blocked: Only platform admins are allowed to access!"))) := by
  have hsome : (db.users.find? (fun u => u.email == email)).isSome := by
    obtain ⟨u2, hm, he⟩ := hdup
    exact List.find?_isSome.mpr ⟨u2, hm, by simpa using he⟩
  unfold signup_user
  split_ifs with hcap
  · exact ⟨rfl, Or.inr ⟨hcap.1, hcap.2, rfl⟩⟩
  · exact ⟨rfl, Or.inl rfl⟩

/-- C8 (witness): a duplicate-email signup with role institute_admin on
`db2` is rejected with "User already exists!" and changes nothing. -/
theorem C8_duplicate_email_witness :
    (signup_user "u9" "institute_admin" "N" "p1@example.com" "pw" db2).2 =
      db2 ∧
    ((signup_user "u9" "institute_admin" "N" "p1@example.com" "pw" db2).1 =
        Response.template "index.html" (some "User already exists!") ∨
      ("institute_admin" = "platform_admin" ∧ 2 ≤ adminCount db2 ∧
        (signup_user "u9" "institute_admin" "N" "p1@example.com" "pw"
          db2).1 = Response.template "index.html"
            (some "Signup blocked: Only platform admins are allowed to access!"))) :=
  C8_duplicate_email db2 "u9" "institute_admin" "N" "p1@example.com" "pw"
    ⟨padmin1, by decide, rfl⟩

/-- After erasing the first match from a list with at most one match, no
match remains. -/
lemma eraseP_no_more_match {α : Type} (p : α → Bool) (l : List α)
    (h : l.countP p ≤ 1) : ∀ a ∈ l.eraseP p, p a = false := by
  induction l with
  | nil =>
    intro a ha
    exact absurd ha (List.not_mem_nil a)
  | cons x xs ih =>
    intro a ha
    by_cases hx : p x = true
    · simp only [List.eraseP_cons, hx, cond_true] at ha
      rw [List.countP_cons, hx] at h
      simp at h
      exact h a ha
    · have hx0 : p x = false := by
        cases hpx : p x
        · rfl
        · exact absurd hpx hx
      simp only [List.eraseP_cons, hx0, cond_false] at ha
      rcases List.mem_cons.mp ha with h1 | h1
      · subst h1
        exact hx0
      · refine ih ?_ a h1
        rw [List.countP_cons, hx0] at h
        simpa using h


/-- In a list of students with pairwise distinct ids, at most one
student matches an id-and-institute query. -/
lemma students_match_count_le_one (l : List Student) (sid iid : String)
    (hpw : l.Pairwise (fun a b => a.id ≠ b.id)) :
    l.countP (fun s => s.id == sid && s.institute_id == iid) ≤ 1 := by
  induction l with
  | nil => simp
  | cons x xs ih =>
    rcases List.pairwise_cons.mp hpw with ⟨hx, hxs⟩
    rw [List.countP_cons]
    by_cases hpx : (x.id == sid && x.institute_id == iid) = true
    · have hxid : x.id = sid := by
        simpa using ((Bool.and_eq_true _ _).mp hpx).1
      have h0 : xs.countP (fun s => s.id == sid && s.institute_id == iid) = 0 := by
        rw [List.countP_eq_zero]
        intro a ha hpa
        have haid : a.id = sid := by
          simpa using ((Bool.and_eq_true _ _).mp hpa).1
        exact hx a ha (hxid.trans haid.symm)
      rw [h0, hpx]
      simp
    · have hpx0 : (x.id == sid && x.institute_id == iid) = false := by
        cases hb : (x.id == sid && x.institute_id == iid)
        · rfl
        · exact absurd hb hpx
      rw [hpx0]
      simpa using ih hxs

/-- C9.  Deleting a student cascades: for an authorized delete of a
student of the caller's institute, the student document is removed
(erased as the unique match when ids are distinct), every payment with
that student id is removed while all other collections and payments are
kept; when no such student exists, a 404 "Student not found" is raised
and nothing changes. -/
theorem C9_delete_student_cascade (u : SessionUser) (db : DB)
    (student_id : String) (institute : Institute)
    (hrole : u.role = "institute_admin")
    (hinst : db.institutes.find? (fun i => i.user_email == u.email) =
      some institute) :
    ((∃ s ∈ db.students,
        (s.id == student_id && s.institute_id == institute.id) = true) →
      (delete_student (some u) student_id db).1 =
        Response.redirect "/students" 302 ∧
      (delete_student (some u) student_id db).2.students =
        db.students.eraseP (fun s =>
          s.id == student_id && s.institute_id == institute.id) ∧
      (delete_student (some u) student_id db).2.payments =
        db.payments.filter (fun p => ¬ p.student_id == student_id) ∧
      (delete_student (some u) student_id db).2.users = db.users ∧
      (delete_student (some u) student_id db).2.institutes =
        db.institutes ∧
      (delete_student (some u) student_id db).2.faculties =
        db.faculties ∧
      (delete_student (some u) student_id db).2.courses = db.courses ∧
      (delete_student (some u) student_id db).2.tests = db.tests ∧
      (delete_student (some u) student_id db).2.materials =
        db.materials ∧
      (delete_student (some u) student_id db).2.gridfs = db.gridfs ∧
      (db.students.Pairwise (fun a b => a.id ≠ b.id) →
        ∀ s ∈ db.students,
          (s.id == student_id && s.institute_id == institute.id) = true →
          s ∉ (delete_student (some u) student_id db).2.students)) ∧
    ((¬ ∃ s ∈ db.students,
        (s.id == student_id && s.institute_id == institute.id) = true) →
      delete_student (some u) student_id db =
        (Response.httpError 404 "Student not found", db)) := by
  unfold delete_student
  dsimp only
  rw [if_neg (fun h => h hrole), hinst]
  dsimp only
  constructor
  · intro hex
    have hany : (db.students.any (fun s =>
        s.id == student_id && s.institute_id == institute.id)) = true :=
      List.any_eq_true.mpr hex
    rw [if_pos hany]
    refine ⟨rfl, rfl, rfl, rfl, rfl, rfl, rfl, rfl, rfl, rfl, ?_⟩
    intro hpw s hs hps hmem
    have hle := students_match_count_le_one db.students student_id
      institute.id hpw
    have := eraseP_no_more_match _ db.students hle s hmem
    rw [hps] at this
    exact Bool.true_eq_false.mp this
  · intro hnex
    have hany : (db.students.any (fun s =>
        s.id == student_id && s.institute_id == institute.id)) = false := by
      cases hb : db.students.any (fun s =>
          s.id == student_id && s.institute_id == institute.id)
      · rfl
      · exact absurd (List.any_eq_true.mp hb) hnex
    rw [if_neg (by simp [hany])]

/-- A recorded payment of 40 for student s1. -/
def payment1 : Payment :=
  { institute_id := "i1", student_id := "s1", amount := 40,
    method := "Cash", date := "2025-03-01", transaction_id := none,
    receipt_number := none, notes := none }

/-- A recorded payment of 60 for an unrelated student s2. -/
def payment2 : Payment :=
  { institute_id := "i1", student_id := "s2", amount := 60,
    method := "UPI", date := "2025-03-02", transaction_id := some "t2",
    receipt_number := none, notes := none }

/-- Database `db1` with two payments recorded, one for s1 and one for s2. -/
def db5 : DB := { db1 with payments := [payment1, payment2] }

/-- C9 (witness): deleting student s1 of `db5` redirects to /students
and keeps exactly the payments of other students. -/
theorem C9_delete_student_cascade_witness :
    (delete_student (some sessionAdmin) "s1" db5).1 =
      Response.redirect "/students" 302 ∧
    (delete_student (some sessionAdmin) "s1" db5).2.payments =
      db5.payments.filter (fun p => ¬ p.student_id == "s1") :=
  ⟨((C9_delete_student_cascade sessionAdmin db5 "s1" inst1 rfl
      (by decide)).1 (by decide)).1,
    ((C9_delete_student_cascade sessionAdmin db5 "s1" inst1 rfl
      (by decide)).1 (by decide)).2.2.1⟩

/-- C10.  Every student document created by add-student carries
payment_status "Pending" irrespective of the submitted form fields, the
selected course's id and a copy of that course's name. -/
theorem C10_add_student_defaults (u : SessionUser) (db : DB)
    (new_id sname phone semail course_id jd gn gp village xstatus : String)
    (institute : Institute) (course_doc : Course)
    (hrole : u.role = "institute_admin")
    (hinst : db.institutes.find? (fun i => i.user_email == u.email) =
      some institute)
    (hcourse : db.courses.find? (fun c =>
      c.id == course_id && c.institute_id == institute.id) = some course_doc) :
    ∃ doc : Student,
      (add_student (some u) new_id sname phone semail course_id jd gn gp
        village xstatus db).2.students = db.students ++ [doc] ∧
      doc.payment_status = some "Pending" ∧
      doc.course_id = course_doc.id ∧
      doc.course_name = course_doc.name := by
  unfold add_student
  dsimp only
  rw [if_neg (fun h => h hrole)]
  simp only [hinst, hcourse]
  exact ⟨_, rfl, rfl, rfl, rfl⟩

/-- C10 (witness): the student added to `db1` over course c1 gets
payment_status "Pending" and course name "Math". -/
theorem C10_add_student_defaults_witness :
    ∃ doc : Student,
      (add_student (some sessionAdmin) "s3" "Chand" "904" "c@example.com"
        "c1" "2025-02-02" "G3" "905" "V" "Active" db1).2.students =
        db1.students ++ [doc] ∧
      doc.payment_status = some "Pending" ∧
      doc.course_id = course1.id ∧
      doc.course_name = course1.name :=
  C10_add_student_defaults sessionAdmin db1 "s3" "Chand" "904"
    "c@example.com" "c1" "2025-02-02" "G3" "905" "V" "Active" inst1
    course1 rfl (by decide) (by decide)
